import Mathlib

/-!
Verification of the password strength analysis engine
(`password_strength_checker.py`).

A password is modelled as a `List Char` (a sequence of Unicode code
points, matching a Python `str`).  Pure helpers of the engine become
Lean functions with the source's names (leading underscores dropped).
Real-valued quantities (entropy, score) are modelled over `ℝ`.  The
report's `score` field carries the source's `round(score, 2)` (see
`py_round2`); the `category` is computed from the unrounded score, as
in the source, so the two can disagree across a band boundary.  The
report's `entropy_bits` field holds the unrounded value the code
computes and feeds to `_calculate_score` and
`_generate_recommendations`; the source additionally applies
`round(entropy, 2)` to the stored copy, a display step not modelled
(no claim inspects the rounded entropy).
-/

namespace PasswordChecker

/-- Regex `[a-z]` (ASCII range 97–122), as used by `_analyze_characters`. -/
def isLowerAscii (c : Char) : Bool := 97 ≤ c.toNat && c.toNat ≤ 122

/-- Regex `[A-Z]` (ASCII range 65–90). -/
def isUpperAscii (c : Char) : Bool := 65 ≤ c.toNat && c.toNat ≤ 90

/-- Regex `\d`, modelled as ASCII `0`–`9` (48–57).  Python's `\d` also
matches non-ASCII Unicode decimal digits (category Nd, none of which lie
below code point 0x660); every input exercised by a theorem below is
either pure ASCII or restricted to code points under 0x660, where the
two readings agree. -/
def isAsciiDigit (c : Char) : Bool := 48 ≤ c.toNat && c.toNat ≤ 57

/-- Regex `[^a-zA-Z0-9]`: any character that is not an ASCII
alphanumeric.  Note this matches non-ASCII code points too — the
character class is only complemented over ASCII alphanumerics. -/
def isNonAlnum (c : Char) : Bool := !(isLowerAscii c || isUpperAscii c || isAsciiDigit c)

/-- Regex `[^\x00-\x7F]`: any code point outside ASCII. -/
def isNonAscii (c : Char) : Bool := 127 < c.toNat

/-- Result dictionary of `_analyze_characters`. -/
structure CharAnalysis where
  has_lowercase : Bool
  has_uppercase : Bool
  has_digits : Bool
  has_symbols : Bool
  has_unicode : Bool
  lowercase_count : Nat
  uppercase_count : Nat
  digit_count : Nat
  symbol_count : Nat
  character_set_size : Nat
  diversity_score : Nat
deriving DecidableEq

/-- `_calculate_diversity`: step function of the number of distinct
character classes present (returned as a number 0–100). -/
def calculate_diversity (lower upper digit symbol unicod : Bool) : Nat :=
  let types := (cond lower 1 0) + (cond upper 1 0) + (cond digit 1 0) +
    (cond symbol 1 0) + (cond unicod 1 0)
  if types = 0 then 0
  else if types = 1 then 20
  else if types = 2 then 40
  else if types = 3 then 60
  else if types = 4 then 80
  else 100

/-- `_analyze_characters`: per-class membership flags (via `re.search`),
per-class counts (via `re.findall`), additive alphabet size, and the
diversity score. -/
def analyze_characters (password : List Char) : CharAnalysis :=
  let has_lower := password.any isLowerAscii
  let has_upper := password.any isUpperAscii
  let has_digit := password.any isAsciiDigit
  let has_symbol := password.any isNonAlnum
  let has_unicod := password.any isNonAscii
  let char_set_size :=
    (cond has_lower 26 0) + (cond has_upper 26 0) + (cond has_digit 10 0) +
    (cond has_symbol 33 0) + (cond has_unicod 100 0)
  { has_lowercase := has_lower
    has_uppercase := has_upper
    has_digits := has_digit
    has_symbols := has_symbol
    has_unicode := has_unicod
    lowercase_count := password.countP (fun c => isLowerAscii c)
    uppercase_count := password.countP (fun c => isUpperAscii c)
    digit_count := password.countP (fun c => isAsciiDigit c)
    symbol_count := password.countP (fun c => isNonAlnum c)
    character_set_size := char_set_size
    diversity_score := calculate_diversity has_lower has_upper has_digit has_symbol has_unicod }

/-- `_load_keyboard_patterns`: the fixed reference list. -/
def load_keyboard_patterns : List (List Char) :=
  ["qwerty".data, "qwertyuiop".data, "asdfgh".data, "asdfghjkl".data, "zxcvbn".data,
   "123456".data, "12345678".data, "123456789".data, "1234567890".data,
   "abcdef".data, "abcdefgh".data, "qwerty123".data, "asdf123".data, "zxcv123".data]

/-- Maximal blocks of consecutive characters satisfying `f`, left to
right (the matches of a greedy `f{1,}` regex scan); `acc` holds the
current block in reverse. -/
def runs_of_aux (f : Char → Bool) : List Char → List Char → List (List Char)
  | [], acc => if acc = [] then [] else [acc.reverse]
  | c :: cs, acc =>
    if f c then runs_of_aux f cs (c :: acc)
    else if acc = [] then runs_of_aux f cs []
    else acc.reverse :: runs_of_aux f cs []

def runs_of (f : Char → Bool) (s : List Char) : List (List Char) :=
  runs_of_aux f s []

/-- Run-length encoding helper: `d` is the current character, `n` its
count so far. -/
def rle_aux : List Char → Char → Nat → List (Char × Nat)
  | [], d, n => [(d, n)]
  | c :: cs, d, n => if c = d then rle_aux cs d (n + 1) else (d, n) :: rle_aux cs c 1

/-- Maximal runs of identical consecutive characters, as
(character, run length) pairs. -/
def rle : List Char → List (Char × Nat)
  | [] => []
  | c :: cs => rle_aux cs c 1

/-- Adjacent code points each increase by exactly 1. -/
def ascending_by_one : List Char → Bool
  | [] => true
  | [_] => true
  | a :: b :: rest => (b.toNat = a.toNat + 1) && ascending_by_one (b :: rest)

/-- `_is_sequential`.  The digit branch compares `int` values of single
digit characters, the letter branch `ord` values; on the ASCII runs this
is applied to, both are code-point adjacency, so the flag does not
change the result. -/
def is_sequential (sequence : List Char) (is_digit : Bool) : Bool :=
  if sequence.length < 3 then false else ascending_by_one sequence

/-- `needle` occurs at the start of `hay`. -/
def startsWithList : List Char → List Char → Bool
  | [], _ => true
  | _ :: _, [] => false
  | a :: as, b :: bs => a = b && startsWithList as bs

/-- Python's `needle in hay`: contiguous substring containment. -/
def containsList (needle : List Char) : List Char → Bool
  | [] => needle.isEmpty
  | c :: rest => startsWithList needle (c :: rest) || containsList needle rest

/-- Exactly `k` ASCII digits from the front of `s`: the digits taken and
the remaining input. -/
def take_digits : Nat → List Char → Option (List Char × List Char)
  | 0, s => some ([], s)
  | _ + 1, [] => none
  | k + 1, c :: rest =>
    if isAsciiDigit c then (take_digits k rest).map (fun p => (c :: p.1, p.2))
    else none

/-- Regex matching one of the two separator characters (slash or dash): one separator character from the front. -/
def take_sep : List Char → Option (Char × List Char)
  | c :: rest => if c = '/' || c = '-' then some (c, rest) else none
  | [] => none

/-- First success of `f` over the candidate counts, in order (the regex
engine's greedy-then-backtrack order). -/
def first_match {α : Type} (f : Nat → Option α) : List Nat → Option α
  | [] => none
  | k :: ks =>
    match f k with
    | some a => some a
    | none => first_match f ks

/-- Match the date-format regex (one or two digits, a slash-or-dash separator, one or two digits, a separator, then two to four digits) at the current position
(greedy quantifiers with backtracking): the matched text and the rest. -/
def match_date_at (s : List Char) : Option (List Char × List Char) :=
  first_match (fun k1 =>
    (take_digits k1 s).bind (fun p1 =>
      (take_sep p1.2).bind (fun q1 =>
        first_match (fun k2 =>
          (take_digits k2 q1.2).bind (fun p2 =>
            (take_sep p2.2).bind (fun q2 =>
              first_match (fun k3 =>
                (take_digits k3 q2.2).map (fun p3 =>
                  (p1.1 ++ q1.1 :: p2.1 ++ q2.1 :: p3.1, p3.2)))
                [4, 3, 2]))) [2, 1]))) [2, 1]

/-- `re.findall` scan for the date-format regex: leftmost matches,
resuming after each match.  The fuel (the input length) bounds the
number of scan steps; every step consumes at least one character. -/
def find_dates_aux : Nat → List Char → List (List Char)
  | 0, _ => []
  | _ + 1, [] => []
  | fuel + 1, c :: rest =>
    match match_date_at (c :: rest) with
    | some (m, r) => m :: find_dates_aux fuel r
    | none => find_dates_aux fuel rest

def find_dates (s : List Char) : List (List Char) :=
  find_dates_aux s.length s

/-- `re.findall(r'\d{4}')` within one maximal digit run: disjoint chunks
of four digits from the left; a remainder shorter than four digits gives
no match. -/
def chunks4 : List Char → List (List Char)
  | a :: b :: c :: d :: rest => [a, b, c, d] :: chunks4 rest
  | _ => []

/-- Regex `^(.)\1+$`: the whole password is one character repeated at
least twice.  `.` does not match a newline.  (Python's `$` would also
match just before one trailing newline; no claim involves newlines, so
this is modelled as end of input.) -/
def all_same_char : List Char → Bool
  | [] => false
  | [_] => false
  | c :: rest => (c ≠ '\n') && rest.all (fun d => d = c)

/-- `str.isdigit`, restricted to ASCII digits (see `isAsciiDigit` on the
non-ASCII digit caveat; Python's version also accepts some other Unicode
digit-like characters, which no claim exercises). -/
def py_isdigit (s : List Char) : Bool := !s.isEmpty && s.all isAsciiDigit

/-- `str.isalpha`, restricted to ASCII letters (Python's version accepts
all Unicode letters; no claim exercises non-ASCII letters here). -/
def py_isalpha (s : List Char) : Bool :=
  !s.isEmpty && s.all (fun c => isLowerAscii c || isUpperAscii c)

/-- Result dictionary of `_detect_patterns`. -/
structure Patterns where
  sequential_digits : List (List Char)
  sequential_letters : List (List Char)
  repetitive_chars : List (List Char)
  keyboard_patterns : List (List Char)
  common_patterns : List String
  date_patterns : List (List Char)
deriving DecidableEq

/-- `_detect_patterns`.  Notes kept from the source:
* `re.findall(r'\d{3,}')` / `re.findall(r'[a-z]{3,}')` return the
  maximal runs of length ≥ 3, which are then filtered by
  `_is_sequential`.
* the repetitive-characters entry for each run found by
  `re.finditer(r'(.)\1{2,}', password)` is `match[0] * len(match.group())`;
  `match[0]` is group 0, i.e. the whole matched run, so a run of `n`
  identical characters `c` contributes `c` repeated `n * n` times.
* `password.lower()` is modelled by `Char.toLower` (ASCII lowercasing;
  every claim below exercises only ASCII here). -/
def detect_patterns (password : List Char) : Patterns :=
  let password_lower := password.map Char.toLower
  let digit_runs := (runs_of isAsciiDigit password).filter (fun r => 3 ≤ r.length)
  let letter_runs := (runs_of isLowerAscii password_lower).filter (fun r => 3 ≤ r.length)
  { sequential_digits := digit_runs.filter (fun r => is_sequential r true)
    sequential_letters := letter_runs.filter (fun r => is_sequential r false)
    repetitive_chars :=
      ((rle password).filter (fun r => 3 ≤ r.2 && r.1 ≠ '\n')).map
        (fun r => List.replicate (r.2 * r.2) r.1)
    keyboard_patterns :=
      load_keyboard_patterns.filter (fun pat => containsList pat password_lower)
    common_patterns :=
      (if all_same_char password then ["All same character"] else []) ++
      (if py_isdigit password then ["All digits"] else []) ++
      (if py_isalpha password then ["All letters"] else [])
    date_patterns :=
      ((runs_of isAsciiDigit password).map chunks4).flatten ++ find_dates password }

/-- `_load_common_passwords`: the built-in 35-entry set of known weak
passwords, in source order.  (Python stores them in a `set`; membership
is all the code ever asks of it, which a list models faithfully.) -/
def load_common_passwords : List (List Char) :=
  ["password".data, "123456".data, "12345678".data, "123456789".data, "1234567890".data,
   "qwerty".data, "abc123".data, "password1".data, "welcome".data, "monkey".data,
   "1234567".data, "letmein".data, "trustno1".data, "dragon".data, "baseball".data,
   "iloveyou".data, "master".data, "sunshine".data, "ashley".data, "bailey".data,
   "passw0rd".data, "shadow".data, "123123".data, "654321".data, "superman".data,
   "qazwsx".data, "michael".data, "football".data, "welcome123".data, "jesus".data,
   "ninja".data, "mustang".data, "password123".data, "admin".data, "login".data]

/-- Result dictionary of `_check_dictionary`. -/
structure DictFindings where
  is_common_password : Bool
  contains_dictionary_word : Bool
  contains_reversed_word : Bool
  contains_substituted_word : Bool
  dictionary_words_found : List (List Char)
  substitutions_detected : List (List Char)
deriving DecidableEq

/-- The fixed leet-substitution table of `_check_dictionary`, as
(canonical letter, substituted character) pairs in source (dict
insertion) order. -/
def substitutions : List (Char × Char) :=
  [('a', '@'), ('e', '3'), ('i', '1'), ('o', '0'), ('s', '$'), ('t', '7')]

/-- The substitution loop: for each table entry, `str.replace` every
occurrence of the substituted character by the canonical letter
(single-character replace is a character-wise map). -/
def apply_substitutions (s : List Char) : List Char :=
  substitutions.foldl (fun acc cs => acc.map (fun c => if c = cs.2 then cs.1 else c)) s

/-- One step of the dictionary-containment scan
(`for word in self.dictionary_words: ...`): state is the
`contains_dictionary_word` flag and the accumulated
`dictionary_words_found` list. -/
def scan_contained (password_lower : List Char) (st : Bool × List (List Char))
    (word : List Char) : Bool × List (List Char) :=
  if 4 ≤ word.length && containsList word password_lower then
    (true, if st.2.contains word then st.2 else st.2 ++ [word])
  else st

/-- `_check_dictionary`.  `dictionary_words` is the engine's word set
(empty when no dictionary file was supplied); Python iterates the set,
which a list with a fixed order models (the order within one engine
instance is fixed).  The `if self.dictionary_words:` truthiness guard is
emptiness. -/
def check_dictionary (dictionary_words : List (List Char)) (password : List Char) :
    DictFindings :=
  let password_lower := password.map Char.toLower
  let password_reversed := password_lower.reverse
  let is_common := load_common_passwords.contains password_lower
  let found0 : List (List Char) := if is_common then [password_lower] else []
  let direct := dictionary_words ≠ [] && dictionary_words.contains password_lower
  let found1 := found0 ++ (if direct then [password_lower] else [])
  let scanned :=
    if dictionary_words ≠ [] then dictionary_words.foldl (scan_contained password_lower) (direct, found1)
    else (direct, found1)
  let reversed_hit := dictionary_words ≠ [] && dictionary_words.contains password_reversed
  let found3 :=
    scanned.2 ++ (if reversed_hit then [password_reversed ++ " (reversed)".data] else [])
  let substituted_word := apply_substitutions password_lower
  let substituted_hit :=
    dictionary_words.contains substituted_word || load_common_passwords.contains substituted_word
  { is_common_password := is_common
    contains_dictionary_word := scanned.1
    contains_reversed_word := reversed_hit
    contains_substituted_word := substituted_hit
    dictionary_words_found := found3
    substitutions_detected := if substituted_hit then [substituted_word] else [] }

/-- `_calculate_entropy`: `length * log2(char_set_size)` with the
source's zero guard.  `math.log2` is modelled by the exact real
logarithm. -/
noncomputable def calculate_entropy (length char_set_size : Nat) : ℝ :=
  if char_set_size = 0 ∨ length = 0 then 0
  else (length : ℝ) * Real.logb 2 char_set_size

/-- `_categorize_strength`: the five score bands. -/
noncomputable def categorize_strength (score : ℝ) : String :=
  if score < 30 then "Very Weak"
  else if score < 50 then "Weak"
  else if score < 70 then "Medium"
  else if score < 90 then "Strong"
  else "Very Strong"

/-- `_calculate_score`: five sub-scores summed, then clamped to the
range 0–100.  Python's list-truthiness tests on the pattern lists are
non-emptiness. -/
noncomputable def calculate_score (length : Nat) (char_analysis : CharAnalysis)
    (patterns : Patterns) (dictionary_check : DictFindings) (entropy : ℝ) : ℝ :=
  let length_score : ℝ :=
    if length < 8 then 0 else if length < 12 then 5
    else if length < 16 then 10 else if length < 20 then 13 else 15
  let entropy_score : ℝ := min 30 ((entropy / 128) * 30)
  let diversity_score : ℝ := ((char_analysis.diversity_score : ℝ) / 100) * 20
  let dict_score : ℝ :=
    max 0 (20 - (if dictionary_check.is_common_password then 15 else 0)
      - (if dictionary_check.contains_dictionary_word then 10 else 0)
      - (if dictionary_check.contains_reversed_word then 5 else 0)
      - (if dictionary_check.contains_substituted_word then 8 else 0))
  let pattern_score : ℝ :=
    max 0 (15 - (if patterns.sequential_digits ≠ [] then 5 else 0)
      - (if patterns.sequential_letters ≠ [] then 5 else 0)
      - (if patterns.repetitive_chars ≠ [] then 4 else 0)
      - (if patterns.keyboard_patterns ≠ [] then 6 else 0)
      - (if patterns.common_patterns ≠ [] then 3 else 0))
  min 100 (max 0 (length_score + entropy_score + diversity_score + dict_score + pattern_score))

/-- `_generate_recommendations`: the fixed condition sequence, one fixed
message per holding condition, one positive message when none holds.
(The final message's contraction is spelled out; no claim inspects that
string.)  The `score` argument is accepted and unused, as in the
source. -/
noncomputable def generate_recommendations (length : Nat) (char_analysis : CharAnalysis)
    (patterns : Patterns) (dictionary_check : DictFindings) (entropy : ℝ)
    (score : ℝ) : List String :=
  let recs : List String :=
    (if length < 12 then
      ["Increase password length to at least 12 characters (currently " ++
        toString length ++ ")"] else []) ++
    (if !char_analysis.has_lowercase then ["Add lowercase letters"] else []) ++
    (if !char_analysis.has_uppercase then ["Add uppercase letters"] else []) ++
    (if !char_analysis.has_digits then ["Add numbers"] else []) ++
    (if !char_analysis.has_symbols then ["Add special characters (!@#$%^&*)"] else []) ++
    (if dictionary_check.is_common_password then
      ["Avoid using common passwords - use a unique password"] else []) ++
    (if dictionary_check.contains_dictionary_word then
      ["Avoid dictionary words - use random combinations"] else []) ++
    (if dictionary_check.contains_substituted_word then
      ["Simple character substitutions (like @ for a) are easily detected"] else []) ++
    (if patterns.sequential_digits ≠ [] then
      ["Avoid sequential numbers (123, 1234, etc.)"] else []) ++
    (if patterns.sequential_letters ≠ [] then
      ["Avoid sequential letters (abc, abcd, etc.)"] else []) ++
    (if patterns.repetitive_chars ≠ [] then
      ["Avoid repetitive characters (aaa, 111, etc.)"] else []) ++
    (if patterns.keyboard_patterns ≠ [] then
      ["Avoid keyboard patterns (qwerty, asdf, etc.)"] else []) ++
    (if entropy < 40 then ["Password has low entropy - add more randomness"] else [])
  if recs = [] then
    ["Password meets most security requirements. Keep it unique and do not reuse it!"]
  else recs

/-- Python's `round(x, 2)`: rounding to the nearest multiple of 1/100,
as applied to the score stored in the report.  Modelled with Mathlib's
`round` (nearest integer, ties upward); Python breaks ties to even on
the underlying binary floats, which differs only at exact .005 ties —
no theorem below evaluates at one. -/
noncomputable def py_round2 (x : ℝ) : ℝ := (round (x * 100) : ℝ) / 100

/-- The score `analyze` computes for a password before the 2-decimal
rounding is applied to the stored field: the value the source hands to
`_categorize_strength` and `_generate_recommendations`. -/
noncomputable def analysis_score (dictionary_words : List (List Char))
    (password : List Char) : ℝ :=
  calculate_score password.length (analyze_characters password) (detect_patterns password)
    (check_dictionary dictionary_words password)
    (calculate_entropy password.length (analyze_characters password).character_set_size)

/-- The analysis report (`analyze`'s result dictionary).  Fields the
empty-input sentinel leaves as empty dicts are `Option`s (`none` models
the sentinel's `{}`).  The `cracking_time` dictionary's four duration
strings and combination count are each a pure function of the one exact
combination count `char_set_size ^ length` (the value of
`2 ** entropy`), so the model carries that count; `estimate_cracking_time`
below models the float overflow this glosses over.  The `score` field
holds the rounded `round(score, 2)` value and `category` the label of
the unrounded score; `entropy_bits` holds the unrounded entropy (see
the file header). -/
structure Report where
  password : List Char
  length : Nat
  entropy_bits : ℝ
  score : ℝ
  category : String
  cracking_combinations : Option Nat
  character_analysis : Option CharAnalysis
  patterns_detected : Option Patterns
  dictionary_check : Option DictFindings
  recommendations : List String
  timestamp : String

/-- `_empty_report`; `now` is the value of the report's one
`datetime.now().isoformat()` call. -/
noncomputable def empty_report (now : String) : Report :=
  { password := []
    length := 0
    entropy_bits := 0
    score := 0
    category := "Very Weak"
    cracking_combinations := none
    character_analysis := none
    patterns_detected := none
    dictionary_check := none
    recommendations := ["Please enter a password to analyze"]
    timestamp := now }

/-- `analyze`: the report assembler.  `dictionary_words` is the
engine's dictionary word set (fixed reference data, empty when no
wordlist was supplied) and `now` the timestamp produced by the one
`datetime.now()` call.  The masked `password` field is one asterisk per
character. -/
noncomputable def analyze (dictionary_words : List (List Char)) (now : String)
    (password : List Char) : Report :=
  if password = [] then empty_report now
  else
    let length := password.length
    let char_analysis := analyze_characters password
    let patterns := detect_patterns password
    let dictionary_check := check_dictionary dictionary_words password
    let entropy := calculate_entropy length char_analysis.character_set_size
    let score := calculate_score length char_analysis patterns dictionary_check entropy
    let category := categorize_strength score
    { password := List.replicate length '*'
      length := length
      entropy_bits := entropy
      score := py_round2 score
      category := category
      cracking_combinations := some (char_analysis.character_set_size ^ length)
      character_analysis := some char_analysis
      patterns_detected := some patterns
      dictionary_check := some dictionary_check
      recommendations :=
        generate_recommendations length char_analysis patterns dictionary_check entropy score
      timestamp := now }

/-- `_estimate_cracking_time` computes `combinations = 2 ** entropy`
with `entropy = length * log2(char_set_size)`, so the exact value of
`combinations` is `char_set_size ^ length`.  CPython evaluates
`2 ** entropy` in IEEE double arithmetic and raises `OverflowError`
when the result exceeds the largest finite double, which lies below
`2 ^ 1024`; the threshold is stated on the exact value (near-threshold
float rounding is irrelevant to the inputs considered below, which
overshoot the threshold by thousands of bits).  On success, the four
duration strings and the printed combination count are derived from the
combinations value alone. -/
def estimate_cracking_time (char_set_size length : Nat) : Except String Nat :=
  if 2 ^ 1024 ≤ char_set_size ^ length then Except.error "OverflowError"
  else Except.ok (char_set_size ^ length)

/-- What `export_report` writes: the payload records which serializer
(`json.dump` or `_format_text_report`) produces the file's full content
from the report.  The serializers themselves are presentation-layer
text formatting (spec §1 places them out of scope). -/
inductive ExportPayload
  | jsonPayload (report : Report)
  | textPayload (report : Report)

/-- Python `str.lower()`, ASCII lowercasing (every format string a
claim quantifies over is ASCII). -/
def py_lower (s : String) : String := String.mk (s.data.map Char.toLower)

/-- `export_report`: dispatch on the lower-cased format string.
`Except.ok` models exactly one complete file written with the payload;
`Except.error` models the `ValueError` raised in the final `else`
branch, before any file is opened. -/
def export_report (report : Report) (format : String) : Except String ExportPayload :=
  if py_lower format = "json" then Except.ok (ExportPayload.jsonPayload report)
  else if py_lower format = "txt" then Except.ok (ExportPayload.textPayload report)
  else Except.error ("Unsupported format: " ++ format)

/-- The report with its `timestamp` field cleared, for comparing two
reports up to the timestamp. -/
noncomputable def Report.without_timestamp (r : Report) : Report :=
  { r with timestamp := "" }

/- ------------------------------------------------------------------ -/
/- Helper lemmas                                                       -/
/- ------------------------------------------------------------------ -/

/-- Unfolding `analyze` on a non-empty password. -/
theorem analyze_ne_nil (dictionary_words : List (List Char)) (now : String)
    (password : List Char) (hp : password ≠ []) :
    analyze dictionary_words now password =
      { password := List.replicate password.length '*'
        length := password.length
        entropy_bits :=
          calculate_entropy password.length (analyze_characters password).character_set_size
        score := py_round2 (analysis_score dictionary_words password)
        category := categorize_strength (analysis_score dictionary_words password)
        cracking_combinations :=
          some ((analyze_characters password).character_set_size ^ password.length)
        character_analysis := some (analyze_characters password)
        patterns_detected := some (detect_patterns password)
        dictionary_check := some (check_dictionary dictionary_words password)
        recommendations :=
          generate_recommendations password.length (analyze_characters password)
            (detect_patterns password) (check_dictionary dictionary_words password)
            (calculate_entropy password.length (analyze_characters password).character_set_size)
            (analysis_score dictionary_words password)
        timestamp := now } := by
  unfold analyze
  rw [if_neg hp]
  unfold analysis_score
  rfl

/-- Every character matches at least one of the four ASCII-level
classes (the symbol class is the complement of the other three). -/
theorem exists_class_of_ne_nil (p : List Char) (hp : p ≠ []) :
    p.any isLowerAscii = true ∨ p.any isUpperAscii = true ∨
    p.any isAsciiDigit = true ∨ p.any isNonAlnum = true := by
  obtain ⟨c, hc⟩ := List.exists_mem_of_ne_nil p hp
  by_cases hl : isLowerAscii c = true
  · exact Or.inl (List.any_eq_true.mpr ⟨c, hc, hl⟩)
  by_cases hu : isUpperAscii c = true
  · exact Or.inr (Or.inl (List.any_eq_true.mpr ⟨c, hc, hu⟩))
  by_cases hd : isAsciiDigit c = true
  · exact Or.inr (Or.inr (Or.inl (List.any_eq_true.mpr ⟨c, hc, hd⟩)))
  refine Or.inr (Or.inr (Or.inr (List.any_eq_true.mpr ⟨c, hc, ?_⟩)))
  simp [isNonAlnum, hl, hu, hd]

/-- A non-empty password always has an alphabet of size at least 10. -/
theorem char_set_size_ge_ten (p : List Char) (hp : p ≠ []) :
    10 ≤ (analyze_characters p).character_set_size := by
  have h := exists_class_of_ne_nil p hp
  simp only [analyze_characters]
  rcases h with h | h | h | h <;> rw [h] <;>
    cases p.any isLowerAscii <;> cases p.any isUpperAscii <;>
    cases p.any isAsciiDigit <;> cases p.any isNonAlnum <;>
    cases p.any isNonAscii <;> simp [cond]

/-- The alphabet size is zero exactly on the empty password. -/
theorem char_set_size_eq_zero_iff (p : List Char) :
    (analyze_characters p).character_set_size = 0 ↔ p = [] := by
  constructor
  · intro h
    by_contra hp
    have := char_set_size_ge_ten p hp
    omega
  · intro h
    subst h
    rfl

/-- The score is clamped below by 0. -/
theorem calculate_score_nonneg (length : Nat) (char_analysis : CharAnalysis)
    (patterns : Patterns) (dictionary_check : DictFindings) (entropy : ℝ) :
    0 ≤ calculate_score length char_analysis patterns dictionary_check entropy := by
  unfold calculate_score
  dsimp only
  exact le_min (by norm_num) (le_max_left _ _)

/-- The score is clamped above by 100. -/
theorem calculate_score_le_100 (length : Nat) (char_analysis : CharAnalysis)
    (patterns : Patterns) (dictionary_check : DictFindings) (entropy : ℝ) :
    calculate_score length char_analysis patterns dictionary_check entropy ≤ 100 := by
  unfold calculate_score
  dsimp only
  exact min_le_left _ _

/-- The five category bands, with boundaries exclusive on the upper
side. -/
theorem categorize_strength_bands (s : ℝ) :
    (categorize_strength s = "Very Weak" ↔ s < 30) ∧
    (categorize_strength s = "Weak" ↔ 30 ≤ s ∧ s < 50) ∧
    (categorize_strength s = "Medium" ↔ 50 ≤ s ∧ s < 70) ∧
    (categorize_strength s = "Strong" ↔ 70 ≤ s ∧ s < 90) ∧
    (categorize_strength s = "Very Strong" ↔ 90 ≤ s) := by
  unfold categorize_strength
  split_ifs with h1 h2 h3 h4 <;>
    refine ⟨?_, ?_, ?_, ?_, ?_⟩ <;> simp_all <;> try constructor
  all_goals first
    | linarith
    | (intro h; linarith)

/-- The entropy of a non-empty password is strictly positive (length at
least 1, alphabet size at least 10). -/
theorem calculate_entropy_pos (p : List Char) (hp : p ≠ []) :
    0 < calculate_entropy p.length (analyze_characters p).character_set_size := by
  have hR := char_set_size_ge_ten p hp
  have hn : 0 < p.length := List.length_pos.mpr hp
  unfold calculate_entropy
  rw [if_neg]
  · refine mul_pos ?_ ?_
    · exact_mod_cast hn
    · refine Real.logb_pos (by norm_num) ?_
      have : (10 : ℝ) ≤ ((analyze_characters p).character_set_size : ℝ) := by
        exact_mod_cast hR
      linarith
  · push_neg
    omega

/- ------------------------------------------------------------------ -/
/- Claim theorems                                                      -/
/- ------------------------------------------------------------------ -/

/-- C5: `analyze` on the empty password returns the empty-report
sentinel: length 0, score 0, category "Very Weak", the single
recommendation "Please enter a password to analyze", and no analyzer
output (the per-analyzer fields are the sentinel's empty dicts). -/
theorem C5_empty_input_sentinel (dictionary_words : List (List Char)) (now : String) :
    analyze dictionary_words now [] = empty_report now ∧
    (empty_report now).length = 0 ∧
    (empty_report now).score = 0 ∧
    (empty_report now).category = "Very Weak" ∧
    (empty_report now).recommendations = ["Please enter a password to analyze"] ∧
    (empty_report now).character_analysis = none ∧
    (empty_report now).patterns_detected = none ∧
    (empty_report now).dictionary_check = none ∧
    (empty_report now).cracking_combinations = none :=
  ⟨rfl, rfl, rfl, rfl, rfl, rfl, rfl, rfl, rfl⟩

/-- C2 counterexample: for an engine with no dictionary,
`analyze("password123")` does not satisfy the claim — the exact string
is in the built-in common-password set, so `is_common_password` is
true, not false. -/
theorem C2_counterexample :
    (analyze [] "2025-01-01T00:00:00" "password123".data).dictionary_check =
      some (check_dictionary [] "password123".data) ∧
    ¬ (check_dictionary [] "password123".data).is_common_password = false := by
  exact ⟨rfl, by decide⟩

/-- C2 amended: `analyze("password123")` on an engine with no
dictionary yields `is_common_password = true` (the exact string is one
of the 35 entries of the common-password set) and
`sequential_digits = ["123"]`. -/
theorem C2_amended (now : String) :
    (analyze [] now "password123".data).dictionary_check =
      some (check_dictionary [] "password123".data) ∧
    (check_dictionary [] "password123".data).is_common_password = true ∧
    load_common_passwords.length = 35 ∧
    load_common_passwords.contains "password123".data = true ∧
    (analyze [] now "password123".data).patterns_detected =
      some (detect_patterns "password123".data) ∧
    (detect_patterns "password123".data).sequential_digits = ["123".data] :=
  ⟨rfl, by decide, by decide, by decide, rfl, by decide⟩

/-- C4: evaluating the pattern detector at the failing input "aaa111".
The claim (and the spec) expect `repetitive_chars` to hold the full
runs "aaa" and "111"; the code's `match[0] * len(match.group())` uses
group 0 (the whole match), so each run of n identical characters is
reported as that character repeated n·n times — here "aaaaaaaaa" and
"111111111".  The half of the claim about `sequential_digits` does
hold: "111" is not an ascending run, so the list is empty. -/
theorem C4_failing_eval :
    (analyze [] "2025-01-01T00:00:00" "aaa111".data).patterns_detected =
      some (detect_patterns "aaa111".data) ∧
    (detect_patterns "aaa111".data).repetitive_chars =
      ["aaaaaaaaa".data, "111111111".data] ∧
    (detect_patterns "aaa111".data).repetitive_chars ≠ ["aaa".data, "111".data] ∧
    (detect_patterns "aaa111".data).sequential_digits = [] :=
  ⟨rfl, by decide, by decide, by decide⟩

/-- C3 counterexample: the password consisting of the single non-ASCII
letter 'é' has `has_symbols = true` (the regex `[^a-zA-Z0-9]` also
matches non-ASCII code points) and `character_set_size = 133`, not
100 — refuting the claimed mutual exclusivity of symbol and unicode. -/
theorem C3_counterexample :
    ¬ ((analyze_characters ['é']).has_symbols = false ∧
       (analyze_characters ['é']).character_set_size = 100) := by
  decide

/-- C3 amended: a non-ASCII code point sets `has_unicode` and also
matches the symbol class (the regex `[^a-zA-Z0-9]` is complemented only
over ASCII alphanumerics), so a non-empty password consisting solely of
non-ASCII code points (below U+0660, the first non-ASCII decimal digit,
so that Python's `\d` cannot match either) has `has_symbols = true`,
`has_unicode = true`, the three alphanumeric flags false, and
`character_set_size = 133` (33 + 100), not 100. -/
theorem C3_amended (p : List Char) (hne : p ≠ [])
    (hrange : ∀ c ∈ p, 128 ≤ c.toNat ∧ c.toNat < 1632) :
    (analyze_characters p).has_symbols = true ∧
    (analyze_characters p).has_unicode = true ∧
    (analyze_characters p).has_lowercase = false ∧
    (analyze_characters p).has_uppercase = false ∧
    (analyze_characters p).has_digits = false ∧
    (analyze_characters p).character_set_size = 133 := by
  obtain ⟨c, hc⟩ := List.exists_mem_of_ne_nil p hne
  have hsym : p.any isNonAlnum = true := by
    refine List.any_eq_true.mpr ⟨c, hc, ?_⟩
    have := hrange c hc
    simp [isNonAlnum, isLowerAscii, isUpperAscii, isAsciiDigit]
    omega
  have huni : p.any isNonAscii = true := by
    refine List.any_eq_true.mpr ⟨c, hc, ?_⟩
    have := hrange c hc
    simp [isNonAscii]
    omega
  have hlow : p.any isLowerAscii = false := by
    rw [List.any_eq_false]
    intro d hd
    have := hrange d hd
    simp [isLowerAscii]
    omega
  have hupp : p.any isUpperAscii = false := by
    rw [List.any_eq_false]
    intro d hd
    have := hrange d hd
    simp [isUpperAscii]
    omega
  have hdig : p.any isAsciiDigit = false := by
    rw [List.any_eq_false]
    intro d hd
    have := hrange d hd
    simp [isAsciiDigit]
    omega
  simp [analyze_characters, hsym, huni, hlow, hupp, hdig]

/-- C3 amended, witnessed at the concrete password "é". -/
theorem C3_amended_witness :
    (analyze_characters ['é']).has_symbols = true ∧
    (analyze_characters ['é']).has_unicode = true ∧
    (analyze_characters ['é']).has_lowercase = false ∧
    (analyze_characters ['é']).has_uppercase = false ∧
    (analyze_characters ['é']).has_digits = false ∧
    (analyze_characters ['é']).character_set_size = 133 :=
  C3_amended ['é'] (by decide) (by decide)

/-- C9 counterexample: the format value "JSON" lies outside the literal
set of "json" and "txt", yet export succeeds (the dispatch first
lower-cases the format), refuting the claim as stated, which promises
an invalid-format error for every format value outside that set. -/
theorem C9_counterexample :
    ¬ (("JSON" : String) = "json" ∨ ("JSON" : String) = "txt") ∧
    export_report (empty_report "2025-01-01T00:00:00") "JSON" =
      Except.ok (ExportPayload.jsonPayload (empty_report "2025-01-01T00:00:00")) :=
  ⟨by decide, rfl⟩

/-- C9 amended: exporting with a format whose lower-cased value is
neither "json" nor "txt" fails with the invalid-format (`ValueError`)
error and produces no file action at all — the error branch is taken
before any file is opened, so not even a partial file is written. -/
theorem C9_invalid_format_error (report : Report) (format : String)
    (h1 : py_lower format ≠ "json") (h2 : py_lower format ≠ "txt") :
    export_report report format = Except.error ("Unsupported format: " ++ format) := by
  unfold export_report
  rw [if_neg h1, if_neg h2]

/-- C9 witnessed at format "xml". -/
theorem C9_invalid_format_error_witness :
    export_report (empty_report "2025-01-01T00:00:00") "xml" =
      Except.error ("Unsupported format: " ++ "xml") :=
  C9_invalid_format_error (empty_report "2025-01-01T00:00:00") "xml" (by decide) (by decide)

/-- C10: the format argument is matched case-insensitively — any format
lower-casing to "json" exports the JSON serialization, any format
lower-casing to "txt" exports the text serialization, and the
invalid-format error occurs exactly when the lower-cased format is
neither. -/
theorem C10_format_case_insensitive (report : Report) (format : String) :
    (py_lower format = "json" →
      export_report report format = Except.ok (ExportPayload.jsonPayload report)) ∧
    (py_lower format = "txt" →
      export_report report format = Except.ok (ExportPayload.textPayload report)) ∧
    ((∃ e, export_report report format = Except.error e) ↔
      (py_lower format ≠ "json" ∧ py_lower format ≠ "txt")) := by
  unfold export_report
  by_cases h1 : py_lower format = "json"
  · simp [h1]
  by_cases h2 : py_lower format = "txt"
  · simp [h1, h2]
  · simp [h1, h2]

/-- C10 witnessed at the casings "JSON" and "Txt". -/
theorem C10_format_case_insensitive_witness :
    export_report (empty_report "2025-01-01T00:00:00") "JSON" =
      Except.ok (ExportPayload.jsonPayload (empty_report "2025-01-01T00:00:00")) ∧
    export_report (empty_report "2025-01-01T00:00:00") "Txt" =
      Except.ok (ExportPayload.textPayload (empty_report "2025-01-01T00:00:00")) :=
  ⟨(C10_format_case_insensitive (empty_report "2025-01-01T00:00:00") "JSON").1 (by decide),
   (C10_format_case_insensitive (empty_report "2025-01-01T00:00:00") "Txt").2.1 (by decide)⟩

set_option maxRecDepth 8000 in
/-- C8: with the engine's reference data fixed, two `analyze` calls on
the same password agree on every report field except `timestamp` (the
timestamp input — the `datetime.now()` value — influences only the
timestamp field). -/
theorem C8_deterministic_mod_timestamp (dictionary_words : List (List Char))
    (now1 now2 : String) (password : List Char) :
    (analyze dictionary_words now1 password).without_timestamp =
      (analyze dictionary_words now2 password).without_timestamp := by
  cases password <;> rfl

set_option maxRecDepth 40000 in
/-- C1: the cracking-time step does have an error path.  For the
1024-character password of repeated "a", the alphabet size is 26, the
exact value of `combinations = 2 ** entropy` is `26 ^ 1024`
(≈ 2^4813), far beyond the largest finite IEEE double, and CPython
raises `OverflowError` — so `analyze` does not terminate normally for
arbitrarily long passwords. -/
theorem C1_cracking_time_overflow :
    (analyze_characters (List.replicate 1024 'a')).character_set_size = 26 ∧
    estimate_cracking_time (analyze_characters (List.replicate 1024 'a')).character_set_size
      (List.replicate 1024 'a').length = Except.error "OverflowError" := by
  have h26 : (analyze_characters (List.replicate 1024 'a')).character_set_size = 26 := by
    decide
  refine ⟨h26, ?_⟩
  rw [h26, List.length_replicate]
  unfold estimate_cracking_time
  rw [if_pos]
  exact Nat.pow_le_pow_left (by norm_num) 1024

/-- Rounding to two decimals preserves non-negativity. -/
theorem py_round2_nonneg (x : ℝ) (hx : 0 ≤ x) : 0 ≤ py_round2 x := by
  unfold py_round2
  have h : (0 : ℤ) ≤ round (x * 100) := by
    rw [round_eq]
    exact Int.floor_nonneg.mpr (by linarith)
  have hc : (0 : ℝ) ≤ ((round (x * 100) : ℤ) : ℝ) := by exact_mod_cast h
  linarith

/-- Rounding to two decimals preserves the upper bound 100. -/
theorem py_round2_le_100 (x : ℝ) (hx : x ≤ 100) : py_round2 x ≤ 100 := by
  unfold py_round2
  have h : round (x * 100) ≤ (10000 : ℤ) := by
    rw [round_eq]
    have h1 : ⌊x * 100 + 1 / 2⌋ ≤ ⌊(10000 : ℝ) + 1 / 2⌋ := Int.floor_le_floor (by linarith)
    have h2 : ⌊(10000 : ℝ) + 1 / 2⌋ = 10000 := by
      rw [Int.floor_eq_iff]
      constructor <;> norm_num
    rw [h2] at h1
    exact h1
  have hc : ((round (x * 100) : ℤ) : ℝ) ≤ 10000 := by exact_mod_cast h
  linarith

set_option maxRecDepth 40000 in
/-- `log2(159) < 768/105`, from `159^105 < 2^768`. -/
theorem logb_two_159_lt : Real.logb 2 159 < 768 / 105 := by
  have hn : (159 : ℕ) ^ 105 < 2 ^ 768 := by decide
  have hpow : (159 : ℝ) ^ (105 : ℕ) < (2 : ℝ) ^ (768 : ℕ) := by exact_mod_cast hn
  have h1 : Real.logb 2 ((159 : ℝ) ^ (105 : ℕ)) < Real.logb 2 ((2 : ℝ) ^ (768 : ℕ)) :=
    Real.logb_lt_logb (by norm_num) (by positivity) hpow
  rw [Real.logb_pow, Real.logb_pow, Real.logb_self_eq_one (by norm_num)] at h1
  push_cast at h1
  linarith

set_option maxRecDepth 40000 in
/-- `117/16 < log2(159)`, from `2^117 < 159^16`. -/
theorem logb_two_159_gt : 117 / 16 < Real.logb 2 159 := by
  have hn : (2 : ℕ) ^ 117 < 159 ^ 16 := by decide
  have hpow : (2 : ℝ) ^ (117 : ℕ) < (159 : ℝ) ^ (16 : ℕ) := by exact_mod_cast hn
  have h1 : Real.logb 2 ((2 : ℝ) ^ (117 : ℕ)) < Real.logb 2 ((159 : ℝ) ^ (16 : ℕ)) :=
    Real.logb_lt_logb (by norm_num) (by positivity) hpow
  rw [Real.logb_pow, Real.logb_pow, Real.logb_self_eq_one (by norm_num)] at h1
  push_cast at h1
  linarith

/-- The computable analysis components of the password "abcééé!" on an
engine with no dictionary: 7 characters, alphabet 26+33+100 = 159,
three classes (diversity 60), no dictionary findings, and exactly the
sequential-letter run "abc" and the repetitive run of 'é' among the
patterns. -/
theorem abc_password_components :
    "abcééé!".data.length = 7 ∧
    (analyze_characters "abcééé!".data).character_set_size = 159 ∧
    (analyze_characters "abcééé!".data).diversity_score = 60 ∧
    (check_dictionary [] "abcééé!".data).is_common_password = false ∧
    (check_dictionary [] "abcééé!".data).contains_dictionary_word = false ∧
    (check_dictionary [] "abcééé!".data).contains_reversed_word = false ∧
    (check_dictionary [] "abcééé!".data).contains_substituted_word = false ∧
    (detect_patterns "abcééé!".data).sequential_digits = [] ∧
    (detect_patterns "abcééé!".data).sequential_letters = ["abc".data] ∧
    (detect_patterns "abcééé!".data).repetitive_chars = [List.replicate 9 'é'] ∧
    (detect_patterns "abcééé!".data).keyboard_patterns = [] ∧
    (detect_patterns "abcééé!".data).common_patterns = [] := by
  decide

/-- The unrounded score of "abcééé!" (no dictionary): length 0, entropy
`min 30 (7·log2(159)/128·30)` which the log bound keeps below 12,
diversity 12, dictionary 20, pattern 6. -/
theorem abc_analysis_score_eq :
    analysis_score [] "abcééé!".data = 38 + 7 * Real.logb 2 159 / 128 * 30 := by
  have hlt := logb_two_159_lt
  have hgt := logb_two_159_gt
  obtain ⟨h1, h2, h3, h4, h5, h6, h7, h8, h9, h10, h11, h12⟩ := abc_password_components
  unfold analysis_score
  rw [h1, h2]
  unfold calculate_score calculate_entropy
  rw [h3, h4, h5, h6, h7, h8, h9, h10, h11, h12]
  norm_num
  rw [min_eq_right (by linarith : 7 * Real.logb 2 159 / 128 * 30 ≤ 30)]
  rw [max_eq_right (by linarith : (0 : ℝ) ≤ 7 * Real.logb 2 159 / 128 * 30 + 12 + 20 + 6)]
  rw [min_eq_right (by linarith : 7 * Real.logb 2 159 / 128 * 30 + 12 + 20 + 6 ≤ 100)]
  ring

/-- C6 counterexample: the claimed Report-level score/category
consistency fails at the password "abcééé!" on an engine with no
dictionary.  The unrounded score is `38 + 7·log2(159)/128·30 ≈
49.9977`, so the category (computed before rounding) is "Weak", but
the stored score is the rounded value 50.0, whose band is "Medium". -/
theorem C6_counterexample :
    (analyze [] "2025-01-01T00:00:00" "abcééé!".data).score = 50 ∧
    (analyze [] "2025-01-01T00:00:00" "abcééé!".data).category = "Weak" ∧
    categorize_strength 50 = "Medium" ∧
    ¬ ((analyze [] "2025-01-01T00:00:00" "abcééé!".data).category =
       categorize_strength (analyze [] "2025-01-01T00:00:00" "abcééé!".data).score) := by
  have hne : "abcééé!".data ≠ [] := by decide
  have heq := abc_analysis_score_eq
  have hlt := logb_two_159_lt
  have hgt := logb_two_159_gt
  have hs1 : 30 ≤ analysis_score [] "abcééé!".data := by rw [heq]; linarith
  have hs2 : analysis_score [] "abcééé!".data < 50 := by rw [heq]; linarith
  have hs3 : (4999.5 : ℝ) ≤ analysis_score [] "abcééé!".data * 100 := by
    rw [heq]; linarith
  have hs4 : analysis_score [] "abcééé!".data * 100 < 5000.5 := by
    rw [heq]; linarith
  have hround : py_round2 (analysis_score [] "abcééé!".data) = 50 := by
    unfold py_round2
    have h5000 : round (analysis_score [] "abcééé!".data * 100) = 5000 := by
      rw [round_eq, Int.floor_eq_iff]
      constructor
      · push_cast
        linarith
      · push_cast
        linarith
    rw [h5000]
    norm_num
  have hcat : categorize_strength (analysis_score [] "abcééé!".data) = "Weak" :=
    (categorize_strength_bands _).2.1.mpr ⟨hs1, hs2⟩
  have hmed : categorize_strength 50 = "Medium" :=
    (categorize_strength_bands 50).2.2.1.mpr ⟨by norm_num, by norm_num⟩
  rw [analyze_ne_nil [] "2025-01-01T00:00:00" "abcééé!".data hne]
  dsimp only
  refine ⟨hround, hcat, hmed, ?_⟩
  rw [hround, hcat, hmed]
  decide

/-- C6 amended: for every password the stored score lies in the range
0–100; the category is the label `_categorize_strength` assigns to the
pre-rounding score, while the stored score is that value rounded to
two decimals — so the stored score's band can disagree with the stored
category when rounding crosses a band boundary.  The five bands are
delimited as claimed, with the upper boundary exclusive — in
particular a score of exactly 30 maps to "Weak". -/
theorem C6_amended (dictionary_words : List (List Char)) (now : String)
    (password : List Char) :
    0 ≤ (analyze dictionary_words now password).score ∧
    (analyze dictionary_words now password).score ≤ 100 ∧
    (analyze dictionary_words now password).category =
      (if password = [] then "Very Weak"
       else categorize_strength (analysis_score dictionary_words password)) ∧
    (analyze dictionary_words now password).score =
      (if password = [] then 0
       else py_round2 (analysis_score dictionary_words password)) ∧
    categorize_strength 30 = "Weak" ∧
    ∀ s : ℝ,
      (categorize_strength s = "Very Weak" ↔ s < 30) ∧
      (categorize_strength s = "Weak" ↔ 30 ≤ s ∧ s < 50) ∧
      (categorize_strength s = "Medium" ↔ 50 ≤ s ∧ s < 70) ∧
      (categorize_strength s = "Strong" ↔ 70 ≤ s ∧ s < 90) ∧
      (categorize_strength s = "Very Strong" ↔ 90 ≤ s) := by
  refine ⟨?_, ?_, ?_, ?_,
    (categorize_strength_bands 30).2.1.mpr ⟨le_refl _, by norm_num⟩,
    fun s => categorize_strength_bands s⟩
  · by_cases hp : password = []
    · subst hp
      show (0 : ℝ) ≤ (empty_report now).score
      norm_num [empty_report]
    · rw [analyze_ne_nil dictionary_words now password hp]
      exact py_round2_nonneg _ (calculate_score_nonneg _ _ _ _ _)
  · by_cases hp : password = []
    · subst hp
      show (empty_report now).score ≤ 100
      norm_num [empty_report]
    · rw [analyze_ne_nil dictionary_words now password hp]
      exact py_round2_le_100 _ (calculate_score_le_100 _ _ _ _ _)
  · by_cases hp : password = []
    · subst hp
      rw [if_pos rfl]
      rfl
    · rw [analyze_ne_nil dictionary_words now password hp, if_neg hp]
  · by_cases hp : password = []
    · subst hp
      rw [if_pos rfl]
      rfl
    · rw [analyze_ne_nil dictionary_words now password hp, if_neg hp]

/-- C7: the report's entropy equals `length * log2(alphabet_size)` for
the additive alphabet size of `_analyze_characters`; the entropy is
zero exactly on the empty password, and the alphabet size is zero
exactly on the empty password. -/
theorem C7_entropy_characterization (dictionary_words : List (List Char)) (now : String)
    (password : List Char) :
    (analyze dictionary_words now password).entropy_bits =
      (password.length : ℝ) *
        Real.logb 2 ((analyze_characters password).character_set_size) ∧
    ((analyze dictionary_words now password).entropy_bits = 0 ↔ password = []) ∧
    ((analyze_characters password).character_set_size = 0 ↔ password = []) := by
  refine ⟨?_, ?_, char_set_size_eq_zero_iff password⟩
  · by_cases hp : password = []
    · subst hp
      simp only [List.length_nil, Nat.cast_zero, zero_mul]
      rfl
    · rw [analyze_ne_nil dictionary_words now password hp]
      show calculate_entropy password.length (analyze_characters password).character_set_size = _
      unfold calculate_entropy
      rw [if_neg]
      have hR := char_set_size_ge_ten password hp
      have hn : 0 < password.length := List.length_pos.mpr hp
      push_neg
      omega
  · constructor
    · intro h
      by_contra hp
      have := calculate_entropy_pos password hp
      rw [analyze_ne_nil dictionary_words now password hp] at h
      dsimp only at h
      linarith [this, h.le]
    · intro h
      subst h
      rfl

end PasswordChecker
